import Mathlib

/-!
Shallow embedding of the track-time reconciliation, progress display,
waveform-history sampling and station-extraction logic of `script.js`
(browser radio player), together with theorems checking the spec's
claims about them.

Times are modelled as rationals (JS numbers carrying epoch seconds),
optional / possibly-absent JS values as `Option`, and JS string
truthiness (`undefined`/`null`/`""` are falsy) explicitly.
-/

namespace Beep

/-- `TIME_LAG_BUFFER` — latency buffer in seconds (script.js line 2). -/
def TIME_LAG_BUFFER : ℚ := 40

/-- A song object `{title, artist, art}`; each field may be absent. -/
structure Song where
  title : Option String
  artist : Option String
  art : Option String
deriving DecidableEq

/-- A track snapshot `{played_at, duration, song}` from the API. -/
structure TrackSnapshot where
  played_at : ℚ
  duration : ℚ
  song : Song
deriving DecidableEq

/-- A mount entry `{url, is_default}` of a station. -/
structure Mount where
  url : Option String
  is_default : Bool
deriving DecidableEq

/-- A station object `{name, shortcode, listen_url, mounts}`;
`listen_url` and `mounts` may be absent. -/
structure StationInfo where
  name : String
  shortcode : String
  listen_url : Option String
  mounts : Option (List Mount)
deriving DecidableEq

/-- One per-station element of the API payload:
`{station, now_playing, song_history, playing_next}`.  An absent
`song_history` behaves exactly like an empty one in the code
(`data.song_history && data.song_history.length > 0`), so it is
modelled as a plain list. -/
structure NowPlayingContext where
  station : Option StationInfo
  now_playing : Option TrackSnapshot
  song_history : List TrackSnapshot
  playing_next : Option TrackSnapshot
deriving DecidableEq

/-- JS truthiness of an optional string value:
`undefined`/`null` and the empty string are falsy. -/
def jsTruthy : Option String → Bool
  | none => false
  | some s => !(s == "")

/-- JS `a || b` where `a` is an optional string and `b` a string. -/
def jsOr (a : Option String) (b : String) : String :=
  match a with
  | none => b
  | some s => if s = "" then b else s

/-- `STATION_NAME_MAP` (script.js lines 62-71): static lookup from
station names to their localized display form. -/
def STATION_NAME_MAP : String → Option String
  | "Radio Beeptunes" => some "رادیو بیپ تونز"
  | "Rangarang" => some "رنگارنگ"
  | "Aramesh" => some "آرامش"
  | "Sarkhoshan-e mast" => some "سرخوشان مست"
  | "Owj" => some "اوج"
  | "Sarzamin" => some "سرزمین"
  | "Avang" => some "آونگ"
  | "Harmony" => some "هارمونی"
  | _ => none

/-- The track selected by `updateNowPlayingInfo` (script.js lines
395-423): the branch structure mirrors the source's if / else-if chain
on `currentTimestampSec` against the lag-adjusted windows. -/
def selectTrack (data : NowPlayingContext) (now_playing : TrackSnapshot)
    (currentTimestampSec : ℚ) : TrackSnapshot :=
  let nowStartTime := now_playing.played_at + TIME_LAG_BUFFER
  let nowEndTime := nowStartTime + now_playing.duration
  if currentTimestampSec < nowStartTime then
    match data.song_history with
    | lastHistory :: _ =>
      let historyStartTime := lastHistory.played_at + TIME_LAG_BUFFER
      let historyEndTime := historyStartTime + lastHistory.duration
      if currentTimestampSec > historyEndTime then now_playing else lastHistory
    | [] => now_playing
  else if nowEndTime ≤ currentTimestampSec then
    match data.playing_next with
    | some nxt => nxt
    | none => now_playing
  else now_playing

/-- The externally visible effects of one `updateNowPlayingInfo` call:
the three text fields it writes, the track it settles on, the baseline
handed to `startProgressTimer` (`none` = `stopProgressTimer` was called
instead), and the media-session metadata (`none` = `clearMediaSession`
was called instead). -/
structure UpdateEffects where
  songTitleText : String
  artistNameText : String
  stationNameText : String
  selected : Option TrackSnapshot
  timerBaseline : Option (ℚ × ℚ)
  mediaSession : Option (Song × String)
deriving DecidableEq

/-- The early-return fallback block of `updateNowPlayingInfo`
(script.js lines 384-393). -/
def fallbackEffects (data : Option NowPlayingContext) : UpdateEffects :=
  { songTitleText := "اطلاعات در دسترس نیست"
    artistNameText := "لطفا ایستگاه را انتخاب کنید"
    stationNameText :=
      jsOr ((data.bind NowPlayingContext.station).map StationInfo.name) "Beeptunes Radio"
    selected := none
    timerBaseline := none
    mediaSession := none }

/-- The success path of `updateNowPlayingInfo` (script.js lines
425-443): lag-adjust the selected track's `played_at`, write the text
fields, update the media session and start the progress timer. -/
def displayEffects (data : NowPlayingContext) (now_playing : TrackSnapshot)
    (station : StationInfo) (currentTimestampSec : ℚ) : UpdateEffects :=
  let trackData := selectTrack data now_playing currentTimestampSec
  let playedAt := trackData.played_at + TIME_LAG_BUFFER
  let duration := trackData.duration
  let song := trackData.song
  { songTitleText := jsOr song.title "بدون عنوان"
    artistNameText := jsOr song.artist "هنرمند ناشناس"
    stationNameText := (STATION_NAME_MAP station.name).getD station.name
    selected := some trackData
    timerBaseline := some (playedAt, duration)
    mediaSession := some (song, station.name) }

/-- `updateNowPlayingInfo` (script.js lines 383-444) as a function of
the context and the wall clock `Date.now() / 1000`.  The guard mirrors
`!data || !data.now_playing || !data.station`. -/
def updateNowPlayingInfo (data : Option NowPlayingContext)
    (currentTimestampSec : ℚ) : UpdateEffects :=
  match data with
  | none => fallbackEffects none
  | some d =>
    match d.now_playing, d.station with
    | some np, some station => displayEffects d np station currentTimestampSec
    | some _, none => fallbackEffects data
    | none, _ => fallbackEffects data

/-- `formatTime` (script.js lines 80-84): `Math.floor` of minutes and of
the JS remainder by 60, the seconds zero-padded to two digits. -/
def formatTime (totalSeconds : ℚ) : String :=
  let minutes : ℤ := ⌊totalSeconds / 60⌋
  let jsRem : ℚ := totalSeconds - 60 * (if 0 ≤ totalSeconds / 60 then (⌊totalSeconds / 60⌋ : ℚ) else (⌈totalSeconds / 60⌉ : ℚ))
  let seconds : ℤ := ⌊jsRem⌋
  let s := toString seconds
  toString minutes ++ ":" ++ (if s.length ≥ 2 then s else "0" ++ s)

/-- What one `updateProgress` call writes: the two time labels and the
progress-bar width percentage. -/
structure ProgressDisplay where
  elapsedText : String
  durationText : String
  widthPercent : ℚ
deriving DecidableEq

/-- `updateProgress` (script.js lines 90-105) with `currentDuration`
made an explicit argument. -/
def updateProgress (currentTime : ℚ) (currentDuration : ℚ) : ProgressDisplay :=
  if 0 < currentDuration then
    let progressTime := min currentTime currentDuration
    let progressPercentage := progressTime / currentDuration * 100
    { elapsedText := formatTime progressTime
      durationText := formatTime currentDuration
      widthPercent := progressPercentage }
  else
    { elapsedText := "0:00", durationText := "0:00", widthPercent := 0 }

/-- The elapsed time computed on each progress tick and on timer start
(script.js lines 120 and 127):
`Math.floor(Date.now() / 1000 - currentStartTime)`. -/
def elapsedApiTime (nowSec currentStartTime : ℚ) : ℤ :=
  ⌊nowSec - currentStartTime⌋

/-- `BAR_WIDTH` (script.js line 56). -/
def BAR_WIDTH : ℕ := 2

/-- `BAR_SPACING` (script.js line 57). -/
def BAR_SPACING : ℕ := 1

/-- `STEP = BAR_WIDTH + BAR_SPACING` (script.js line 58). -/
def STEP : ℕ := BAR_WIDTH + BAR_SPACING

/-- `TOTAL_BARS = Math.floor(VIS_W / STEP)` (script.js line 59).  The
canvas width `VIS_W` comes from the HTML document and is kept as a
parameter. -/
def TOTAL_BARS (VIS_W : ℕ) : ℕ := VIS_W / STEP

/-- The half-bar height computed by one sampling tick (script.js lines
184-202): peak of `|sample - 128|` over the time-domain frame,
normalized by 128, scaled by `0.45 * VIS_H`. -/
def halfBarHeight (VIS_H : ℚ) (dataArray : List ℕ) : ℚ :=
  let maxAmplitude : ℕ :=
    dataArray.foldl (fun acc j => max acc ((j : ℤ) - 128).natAbs) 0
  let normalizedAmplitude : ℚ := (maxAmplitude : ℚ) / 128
  normalizedAmplitude * (VIS_H * (45 / 100))

/-- The shift-then-push step of the sampling tick (script.js lines
205-208): `if (waveformHistory.length >= TOTAL_BARS) shift(); push(h)`. -/
def samplingTick (totalBars : ℕ) (waveformHistory : List ℚ) (h : ℚ) : List ℚ :=
  (if totalBars ≤ waveformHistory.length then waveformHistory.tail
   else waveformHistory) ++ [h]

/-- `startPeakSampling`'s history evolution (script.js lines 172-211):
initial fill `Array(TOTAL_BARS).fill(0)`, then one shift-then-push per
tick with the heights computed from the successive audio frames. -/
def runPeakSampling (totalBars : ℕ) (heights : List ℚ) : List ℚ :=
  heights.foldl (samplingTick totalBars) (List.replicate totalBars 0)

/-- One entry of the list built by `extractStations`
(script.js lines 370-375). -/
structure StationDescriptor where
  name : String
  originalName : String
  shortcode : String
  url : Option String
deriving DecidableEq

/-- `stationData.station.mounts.find(m => m.is_default)?.url`
(script.js line 368), given that `mounts` is present. -/
def findDefaultMountUrl (mounts : List Mount) : Option String :=
  (mounts.find? (fun m => m.is_default)).bind Mount.url

/-- The body of the `map` in `extractStations` (script.js lines
363-375) on one payload element.  `Except.error` marks the two places
the JS would throw a `TypeError`: reading `.name` of an absent
`station`, and calling `.find` on absent `mounts` (reached only when
`listen_url` is falsy, thanks to `||` short-circuiting). -/
def extractOne (stationData : NowPlayingContext) : Except Unit StationDescriptor :=
  match stationData.station with
  | none => .error ()
  | some st =>
    let originalName := st.name
    let persianName := (STATION_NAME_MAP originalName).getD originalName
    if jsTruthy st.listen_url then
      .ok { name := persianName, originalName := originalName,
            shortcode := st.shortcode, url := st.listen_url }
    else
      match st.mounts with
      | none => .error ()
      | some mounts =>
        .ok { name := persianName, originalName := originalName,
              shortcode := st.shortcode, url := findDefaultMountUrl mounts }

/-- `extractStations` (script.js lines 362-377): map each payload
element to a descriptor, then `filter(s => s.url)` keeps those with a
truthy url. -/
def extractStations : List NowPlayingContext → Except Unit (List StationDescriptor)
  | [] => .ok []
  | stationData :: rest =>
    match extractOne stationData with
    | .error e => .error e
    | .ok d =>
      match extractStations rest with
      | .error e => .error e
      | .ok ds => .ok (if jsTruthy d.url then d :: ds else ds)

/-! ## Helper lemmas about the reconciler -/

lemma updateNowPlayingInfo_some (d : NowPlayingContext) (np : TrackSnapshot)
    (st : StationInfo) (t : ℚ) (hnp : d.now_playing = some np)
    (hst : d.station = some st) :
    updateNowPlayingInfo (some d) t = displayEffects d np st t := by
  simp [updateNowPlayingInfo, hnp, hst]

lemma updateNowPlayingInfo_selected (d : NowPlayingContext) (np : TrackSnapshot)
    (st : StationInfo) (t : ℚ) (hnp : d.now_playing = some np)
    (hst : d.station = some st) :
    (updateNowPlayingInfo (some d) t).selected = some (selectTrack d np t) := by
  rw [updateNowPlayingInfo_some d np st t hnp hst]; rfl

lemma selectTrack_in_window (d : NowPlayingContext) (np : TrackSnapshot) (t : ℚ)
    (h1 : np.played_at + TIME_LAG_BUFFER ≤ t)
    (h2 : t < np.played_at + TIME_LAG_BUFFER + np.duration) :
    selectTrack d np t = np := by
  unfold selectTrack
  rw [if_neg (not_lt.mpr h1), if_neg (not_le.mpr (by linarith))]

lemma selectTrack_before (d : NowPlayingContext) (np : TrackSnapshot) (t : ℚ)
    (hlt : t < np.played_at + TIME_LAG_BUFFER) :
    selectTrack d np t =
      (match d.song_history with
       | lastHistory :: _ =>
         if lastHistory.played_at + TIME_LAG_BUFFER + lastHistory.duration < t
         then np else lastHistory
       | [] => np) := by
  unfold selectTrack
  rw [if_pos hlt]

lemma selectTrack_after (d : NowPlayingContext) (np : TrackSnapshot) (t : ℚ)
    (hdur : 0 ≤ np.duration)
    (hge : np.played_at + TIME_LAG_BUFFER + np.duration ≤ t) :
    selectTrack d np t =
      (match d.playing_next with
       | some nxt => nxt
       | none => np) := by
  unfold selectTrack
  rw [if_neg (not_lt.mpr (by linarith)), if_pos (by linarith)]

/-! ## Claim theorems C1-C3 -/

/-- C1: for every context with `now_playing` and `station` present and
every `currentTime` with `nowStart ≤ currentTime < nowEnd` (where
`nowStart = now_playing.played_at + 40` and
`nowEnd = nowStart + now_playing.duration`), `updateNowPlayingInfo`
selects `now_playing` as the track to display. -/
theorem C1_in_window_selects_now_playing (d : NowPlayingContext)
    (np : TrackSnapshot) (st : StationInfo) (t : ℚ)
    (hnp : d.now_playing = some np) (hst : d.station = some st)
    (h1 : np.played_at + TIME_LAG_BUFFER ≤ t)
    (h2 : t < np.played_at + TIME_LAG_BUFFER + np.duration) :
    (updateNowPlayingInfo (some d) t).selected = some np := by
  rw [updateNowPlayingInfo_selected d np st t hnp hst,
    selectTrack_in_window d np t h1 h2]

def sampleStation : StationInfo :=
  { name := "Rangarang", shortcode := "rangarang",
    listen_url := some "http://stream.example/rang", mounts := none }

def c1Track : TrackSnapshot :=
  { played_at := 1000, duration := 180,
    song := { title := some "A", artist := some "B", art := none } }

def c1Ctx : NowPlayingContext :=
  { station := some sampleStation, now_playing := some c1Track,
    song_history := [], playing_next := none }

theorem C1_witness :
    c1Track.played_at + TIME_LAG_BUFFER ≤ 1050 ∧
    (1050 : ℚ) < c1Track.played_at + TIME_LAG_BUFFER + c1Track.duration ∧
    (updateNowPlayingInfo (some c1Ctx) 1050).selected = some c1Track :=
  ⟨by norm_num [c1Track, TIME_LAG_BUFFER], by norm_num [c1Track, TIME_LAG_BUFFER],
    C1_in_window_selects_now_playing c1Ctx c1Track sampleStation 1050
      rfl rfl (by norm_num [c1Track, TIME_LAG_BUFFER])
      (by norm_num [c1Track, TIME_LAG_BUFFER])⟩

/-- C2: for every context with `now_playing` and `station` present and
`currentTime < nowStart`: when `song_history` has a head whose
lag-adjusted end (`head.played_at + 40 + head.duration`) is not yet
passed, the history head is selected; when that adjusted end is passed,
or `song_history` is empty, `now_playing` is selected instead. -/
theorem C2_before_window_selects_history (d : NowPlayingContext)
    (np : TrackSnapshot) (st : StationInfo) (t : ℚ)
    (hnp : d.now_playing = some np) (hst : d.station = some st)
    (hlt : t < np.played_at + TIME_LAG_BUFFER) :
    (∀ hd tl, d.song_history = hd :: tl →
      (t ≤ hd.played_at + TIME_LAG_BUFFER + hd.duration →
        (updateNowPlayingInfo (some d) t).selected = some hd) ∧
      (hd.played_at + TIME_LAG_BUFFER + hd.duration < t →
        (updateNowPlayingInfo (some d) t).selected = some np)) ∧
    (d.song_history = [] →
      (updateNowPlayingInfo (some d) t).selected = some np) := by
  constructor
  · intro hd tl hhist
    constructor
    · intro hcov
      rw [updateNowPlayingInfo_selected d np st t hnp hst,
        selectTrack_before d np t hlt, hhist]
      simp only [if_neg (not_lt.mpr hcov)]
    · intro hpast
      rw [updateNowPlayingInfo_selected d np st t hnp hst,
        selectTrack_before d np t hlt, hhist]
      simp only [if_pos hpast]
  · intro hhist
    rw [updateNowPlayingInfo_selected d np st t hnp hst,
      selectTrack_before d np t hlt, hhist]

def c2Hist : TrackSnapshot :=
  { played_at := 800, duration := 190,
    song := { title := some "Prev", artist := none, art := none } }

def c2Ctx : NowPlayingContext :=
  { station := some sampleStation, now_playing := some c1Track,
    song_history := [c2Hist], playing_next := none }

theorem C2_witness :
    (1020 : ℚ) < c1Track.played_at + TIME_LAG_BUFFER ∧
    c2Ctx.song_history = [c2Hist] ∧
    (1020 : ℚ) ≤ c2Hist.played_at + TIME_LAG_BUFFER + c2Hist.duration ∧
    (updateNowPlayingInfo (some c2Ctx) 1020).selected = some c2Hist :=
  ⟨by norm_num [c1Track, TIME_LAG_BUFFER], rfl,
    by norm_num [c2Hist, TIME_LAG_BUFFER],
    ((C2_before_window_selects_history c2Ctx c1Track sampleStation 1020
        rfl rfl (by norm_num [c1Track, TIME_LAG_BUFFER])).1 c2Hist [] rfl).1
      (by norm_num [c2Hist, TIME_LAG_BUFFER])⟩

def c3Now : TrackSnapshot :=
  { played_at := 0, duration := -100,
    song := { title := some "now", artist := none, art := none } }

def c3Hist : TrackSnapshot :=
  { played_at := -40, duration := 100,
    song := { title := some "prev", artist := none, art := none } }

def c3Next : TrackSnapshot :=
  { played_at := 40, duration := 200,
    song := { title := some "next", artist := none, art := none } }

def c3Ctx : NowPlayingContext :=
  { station := some sampleStation, now_playing := some c3Now,
    song_history := [c3Hist], playing_next := some c3Next }

/-- C3 counterexample: a context with a negative `now_playing.duration`
where `currentTime = 20 ≥ nowEnd = -60` and `playing_next` is present,
yet the reconciler selects the history head (since `currentTime` is
still below `nowStart = 40` the first branch wins), not `playing_next`. -/
theorem C3_counterexample :
    c3Now.played_at + TIME_LAG_BUFFER + c3Now.duration ≤ 20 ∧
    c3Ctx.playing_next = some c3Next ∧
    (updateNowPlayingInfo (some c3Ctx) 20).selected = some c3Hist ∧
    c3Hist ≠ c3Next := by
  refine ⟨by norm_num [c3Now, TIME_LAG_BUFFER], rfl, ?_,
    by norm_num [c3Hist, c3Next, TrackSnapshot.mk.injEq]⟩
  rw [updateNowPlayingInfo_selected c3Ctx c3Now sampleStation 20 rfl rfl,
    selectTrack_before c3Ctx c3Now 20 (by norm_num [c3Now, TIME_LAG_BUFFER])]
  norm_num [c3Ctx, c3Hist, TIME_LAG_BUFFER]

/-- C3 (amended with `0 ≤ now_playing.duration`, which rules out the
degenerate overlap of the counterexample): for every context with
`now_playing` and `station` present, non-negative `now_playing.duration`
and `currentTime ≥ nowEnd`: if `playing_next` is present it is selected,
and if it is absent `now_playing` is selected. -/
theorem C3_after_window_selects_next (d : NowPlayingContext)
    (np : TrackSnapshot) (st : StationInfo) (t : ℚ)
    (hnp : d.now_playing = some np) (hst : d.station = some st)
    (hdur : 0 ≤ np.duration)
    (hge : np.played_at + TIME_LAG_BUFFER + np.duration ≤ t) :
    (∀ nxt, d.playing_next = some nxt →
      (updateNowPlayingInfo (some d) t).selected = some nxt) ∧
    (d.playing_next = none →
      (updateNowPlayingInfo (some d) t).selected = some np) := by
  constructor
  · intro nxt hnxt
    rw [updateNowPlayingInfo_selected d np st t hnp hst,
      selectTrack_after d np t hdur hge, hnxt]
  · intro hnxt
    rw [updateNowPlayingInfo_selected d np st t hnp hst,
      selectTrack_after d np t hdur hge, hnxt]

def c3wCtx : NowPlayingContext :=
  { station := some sampleStation, now_playing := some c1Track,
    song_history := [], playing_next := some c3Next }

theorem C3_witness :
    (0 : ℚ) ≤ c1Track.duration ∧
    c1Track.played_at + TIME_LAG_BUFFER + c1Track.duration ≤ 1300 ∧
    c3wCtx.playing_next = some c3Next ∧
    (updateNowPlayingInfo (some c3wCtx) 1300).selected = some c3Next :=
  ⟨by norm_num [c1Track], by norm_num [c1Track, TIME_LAG_BUFFER], rfl,
    (C3_after_window_selects_next c3wCtx c1Track sampleStation 1300
        rfl rfl (by norm_num [c1Track])
        (by norm_num [c1Track, TIME_LAG_BUFFER])).1 c3Next rfl⟩

/-! ## Claim theorems C4, C5, C7, C8 -/

lemma updateNowPlayingInfo_timerBaseline (d : NowPlayingContext)
    (np : TrackSnapshot) (st : StationInfo) (t : ℚ)
    (hnp : d.now_playing = some np) (hst : d.station = some st) :
    (updateNowPlayingInfo (some d) t).timerBaseline =
      some ((selectTrack d np t).played_at + TIME_LAG_BUFFER,
            (selectTrack d np t).duration) := by
  rw [updateNowPlayingInfo_some d np st t hnp hst]; rfl

def c4Track (T : ℚ) (sg : Song) : TrackSnapshot :=
  { played_at := T, duration := 180, song := sg }

def c4Ctx (T : ℚ) (st : StationInfo) (sg : Song) : NowPlayingContext :=
  { station := some st, now_playing := some (c4Track T sg),
    song_history := [], playing_next := none }

/-- C4: whenever the reconciler settles on a track, the baseline
handed to the progress timer is exactly
`(selected.played_at + 40, selected.duration)`; and in the concrete
scenario `now_playing = {played_at := T, duration := 180}` with
`currentTime = T + 50`, `now_playing` is selected, the baseline is
`(T + 40, 180)` and the elapsed time computed by the timer is 10
seconds. -/
theorem C4_baseline_and_elapsed (data : Option NowPlayingContext) (t : ℚ)
    (sel : TrackSnapshot)
    (hsel : (updateNowPlayingInfo data t).selected = some sel) :
    (updateNowPlayingInfo data t).timerBaseline =
      some (sel.played_at + TIME_LAG_BUFFER, sel.duration) ∧
    (∀ (T : ℚ) (st : StationInfo) (sg : Song),
      (updateNowPlayingInfo (some (c4Ctx T st sg)) (T + 50)).selected =
        some (c4Track T sg) ∧
      (updateNowPlayingInfo (some (c4Ctx T st sg)) (T + 50)).timerBaseline =
        some (T + TIME_LAG_BUFFER, 180) ∧
      elapsedApiTime (T + 50) (T + TIME_LAG_BUFFER) = 10) := by
  constructor
  · rcases data with _ | d
    · simp [updateNowPlayingInfo, fallbackEffects] at hsel
    · rcases hnp : d.now_playing with _ | np
      · simp [updateNowPlayingInfo, fallbackEffects, hnp] at hsel
      · rcases hst : d.station with _ | st
        · simp [updateNowPlayingInfo, fallbackEffects, hnp, hst] at hsel
        · rw [updateNowPlayingInfo_selected d np st t hnp hst,
            Option.some.injEq] at hsel
          rw [updateNowPlayingInfo_timerBaseline d np st t hnp hst, hsel]
  · intro T st sg
    have h1 : (c4Track T sg).played_at + TIME_LAG_BUFFER ≤ T + 50 := by
      simp only [c4Track, TIME_LAG_BUFFER]; linarith
    have h2 : T + 50 < (c4Track T sg).played_at + TIME_LAG_BUFFER +
        (c4Track T sg).duration := by
      simp only [c4Track, TIME_LAG_BUFFER]; linarith
    have hwin := selectTrack_in_window (c4Ctx T st sg) (c4Track T sg) (T + 50) h1 h2
    refine ⟨?_, ?_, ?_⟩
    · rw [updateNowPlayingInfo_selected (c4Ctx T st sg) (c4Track T sg) st (T + 50)
        rfl rfl, hwin]
    · rw [updateNowPlayingInfo_timerBaseline (c4Ctx T st sg) (c4Track T sg) st (T + 50)
        rfl rfl, hwin]
      simp [c4Track]
    · unfold elapsedApiTime
      have harg : T + 50 - (T + TIME_LAG_BUFFER) = (10 : ℚ) := by
        simp only [TIME_LAG_BUFFER]; ring
      rw [harg]
      norm_num

theorem C4_witness :
    (updateNowPlayingInfo (some c1Ctx) 1050).selected = some c1Track ∧
    (updateNowPlayingInfo (some c1Ctx) 1050).timerBaseline =
      some (c1Track.played_at + TIME_LAG_BUFFER, c1Track.duration) := by
  have hsel : (updateNowPlayingInfo (some c1Ctx) 1050).selected = some c1Track := by
    rw [updateNowPlayingInfo_selected c1Ctx c1Track sampleStation 1050 rfl rfl,
      selectTrack_in_window c1Ctx c1Track 1050
        (by norm_num [c1Track, TIME_LAG_BUFFER])
        (by norm_num [c1Track, TIME_LAG_BUFFER])]
  exact ⟨hsel, (C4_baseline_and_elapsed (some c1Ctx) 1050 c1Track hsel).1⟩

/-- C5 counterexample: at a negative elapsed time (`currentTime = -10`,
`duration = 100`) the percentage computed by `updateProgress` is
`-10`, strictly below the claimed range `[0, 100]`; only the
upper end is clamped by `min(currentTime, duration)`. -/
theorem C5_counterexample : (updateProgress (-10) 100).widthPercent < 0 := by
  unfold updateProgress
  rw [if_pos (by norm_num : (0 : ℚ) < 100)]
  show min (-10 : ℚ) 100 / 100 * 100 < 0
  rw [min_eq_left (by norm_num)]
  norm_num

/-- C5 (amended with `0 ≤ currentTime`): for every non-negative elapsed
time — including values exceeding the duration — and every positive
duration, the percentage computed by `updateProgress` lies in
`[0, 100]`; for negative elapsed values it can drop below `0`, as only
the upper end is clamped. -/
theorem C5_percentage_clamped (currentTime currentDuration : ℚ)
    (hd : 0 < currentDuration) (ht : 0 ≤ currentTime) :
    0 ≤ (updateProgress currentTime currentDuration).widthPercent ∧
    (updateProgress currentTime currentDuration).widthPercent ≤ 100 := by
  unfold updateProgress
  rw [if_pos hd]
  constructor
  · show 0 ≤ min currentTime currentDuration / currentDuration * 100
    exact mul_nonneg (div_nonneg (le_min ht hd.le) hd.le) (by norm_num)
  · show min currentTime currentDuration / currentDuration * 100 ≤ 100
    have h1 : min currentTime currentDuration / currentDuration ≤ 1 :=
      div_le_one_of_le₀ (min_le_right _ _) hd.le
    nlinarith

theorem C5_witness :
    (0 : ℚ) < 180 ∧ (0 : ℚ) ≤ 250 ∧
    0 ≤ (updateProgress 250 180).widthPercent ∧
    (updateProgress 250 180).widthPercent ≤ 100 :=
  ⟨by norm_num, by norm_num,
    (C5_percentage_clamped 250 180 (by norm_num) (by norm_num)).1,
    (C5_percentage_clamped 250 180 (by norm_num) (by norm_num)).2⟩

/-- C7: for every malformed or absent context (`null` data, missing
`now_playing`, or missing `station`) `updateNowPlayingInfo` produces
exactly the fallback effects — the fixed placeholder texts, no
progress-timer start (the timer is stopped) and no media-session
metadata (the session is cleared) — and, being a total function of the
context, never throws. -/
theorem C7_malformed_context_fallback (data : Option NowPlayingContext) (t : ℚ)
    (h : data = none ∨
      ∃ d, data = some d ∧ (d.now_playing = none ∨ d.station = none)) :
    updateNowPlayingInfo data t = fallbackEffects data ∧
    (updateNowPlayingInfo data t).timerBaseline = none ∧
    (updateNowPlayingInfo data t).mediaSession = none ∧
    (updateNowPlayingInfo data t).songTitleText = "اطلاعات در دسترس نیست" ∧
    (updateNowPlayingInfo data t).artistNameText = "لطفا ایستگاه را انتخاب کنید" := by
  have heq : updateNowPlayingInfo data t = fallbackEffects data := by
    rcases h with rfl | ⟨d, rfl, h2⟩
    · rfl
    · rcases h2 with hnp | hst
      · simp [updateNowPlayingInfo, hnp]
      · rcases hnp : d.now_playing with _ | np
        · simp [updateNowPlayingInfo, hnp]
        · simp [updateNowPlayingInfo, hnp, hst]
  refine ⟨heq, ?_, ?_, ?_, ?_⟩ <;> rw [heq] <;> rfl

def c7Ctx : NowPlayingContext :=
  { station := some sampleStation, now_playing := none,
    song_history := [], playing_next := none }

theorem C7_witness :
    (some c7Ctx = none ∨
      ∃ d, some c7Ctx = some d ∧ (d.now_playing = none ∨ d.station = none)) ∧
    updateNowPlayingInfo (some c7Ctx) 0 = fallbackEffects (some c7Ctx) :=
  ⟨Or.inr ⟨c7Ctx, rfl, Or.inl rfl⟩,
    (C7_malformed_context_fallback (some c7Ctx) 0
      (Or.inr ⟨c7Ctx, rfl, Or.inl rfl⟩)).1⟩

def c8Now : TrackSnapshot :=
  { played_at := 150, duration := 100,
    song := { title := some "Now", artist := none, art := none } }

def c8Hist : TrackSnapshot :=
  { played_at := 100, duration := 100,
    song := { title := some "Prev", artist := none, art := none } }

def c8Ctx : NowPlayingContext :=
  { station := some sampleStation, now_playing := some c8Now,
    song_history := [c8Hist], playing_next := none }

/-- C8 counterexample: both `180` and `200` lie inside the selected
(history) track's lag-adjusted window `[140, 240)`, yet the reconciler
selects the history head at `180` and `now_playing` at `200` — the
history window overlaps `nowStart = 190`, so two times within the same
selected track's window can yield different selections. -/
theorem C8_counterexample :
    (updateNowPlayingInfo (some c8Ctx) 180).selected = some c8Hist ∧
    (updateNowPlayingInfo (some c8Ctx) 200).selected = some c8Now ∧
    c8Hist ≠ c8Now ∧
    c8Hist.played_at + TIME_LAG_BUFFER ≤ 180 ∧
    (180 : ℚ) < c8Hist.played_at + TIME_LAG_BUFFER + c8Hist.duration ∧
    c8Hist.played_at + TIME_LAG_BUFFER ≤ 200 ∧
    (200 : ℚ) < c8Hist.played_at + TIME_LAG_BUFFER + c8Hist.duration := by
  refine ⟨?_, ?_, by norm_num [c8Hist, c8Now, TrackSnapshot.mk.injEq],
    by norm_num [c8Hist, TIME_LAG_BUFFER], by norm_num [c8Hist, TIME_LAG_BUFFER],
    by norm_num [c8Hist, TIME_LAG_BUFFER], by norm_num [c8Hist, TIME_LAG_BUFFER]⟩
  · rw [updateNowPlayingInfo_selected c8Ctx c8Now sampleStation 180 rfl rfl,
      selectTrack_before c8Ctx c8Now 180 (by norm_num [c8Now, TIME_LAG_BUFFER])]
    norm_num [c8Ctx, c8Hist, TIME_LAG_BUFFER]
  · rw [updateNowPlayingInfo_selected c8Ctx c8Now sampleStation 200 rfl rfl,
      selectTrack_in_window c8Ctx c8Now 200
        (by norm_num [c8Now, TIME_LAG_BUFFER])
        (by norm_num [c8Now, TIME_LAG_BUFFER])]

/-- C8 (amended): the reconciler is a pure, deterministic function of
the context and `currentTime` — two invocations with the same arguments
trivially agree — and any two `currentTime` values inside the
`now_playing` window `[nowStart, nowEnd)` yield identical effects (the
same selected track and the same baseline).  Two times inside a history
or next track's own adjusted window need not agree when that window
overlaps the `now_playing` window, as the counterexample shows. -/
theorem C8_same_window_same_selection (d : NowPlayingContext)
    (np : TrackSnapshot) (st : StationInfo) (t1 t2 : ℚ)
    (hnp : d.now_playing = some np) (hst : d.station = some st)
    (h1a : np.played_at + TIME_LAG_BUFFER ≤ t1)
    (h1b : t1 < np.played_at + TIME_LAG_BUFFER + np.duration)
    (h2a : np.played_at + TIME_LAG_BUFFER ≤ t2)
    (h2b : t2 < np.played_at + TIME_LAG_BUFFER + np.duration) :
    updateNowPlayingInfo (some d) t1 = updateNowPlayingInfo (some d) t2 := by
  rw [updateNowPlayingInfo_some d np st t1 hnp hst,
    updateNowPlayingInfo_some d np st t2 hnp hst]
  simp only [displayEffects, selectTrack_in_window d np t1 h1a h1b,
    selectTrack_in_window d np t2 h2a h2b]

theorem C8_witness :
    c1Track.played_at + TIME_LAG_BUFFER ≤ 1050 ∧
    (1050 : ℚ) < c1Track.played_at + TIME_LAG_BUFFER + c1Track.duration ∧
    c1Track.played_at + TIME_LAG_BUFFER ≤ 1100 ∧
    (1100 : ℚ) < c1Track.played_at + TIME_LAG_BUFFER + c1Track.duration ∧
    updateNowPlayingInfo (some c1Ctx) 1050 = updateNowPlayingInfo (some c1Ctx) 1100 :=
  ⟨by norm_num [c1Track, TIME_LAG_BUFFER], by norm_num [c1Track, TIME_LAG_BUFFER],
    by norm_num [c1Track, TIME_LAG_BUFFER], by norm_num [c1Track, TIME_LAG_BUFFER],
    C8_same_window_same_selection c1Ctx c1Track sampleStation 1050 1100 rfl rfl
      (by norm_num [c1Track, TIME_LAG_BUFFER]) (by norm_num [c1Track, TIME_LAG_BUFFER])
      (by norm_num [c1Track, TIME_LAG_BUFFER]) (by norm_num [c1Track, TIME_LAG_BUFFER])⟩

/-! ## Claim theorem C6 -/

lemma samplingTick_length (N : ℕ) (hN : 1 ≤ N) (s : List ℚ) (h : ℚ)
    (hs : s.length ≤ N) : (samplingTick N s h).length ≤ N := by
  unfold samplingTick
  rcases le_or_lt N s.length with hge | hlt
  · rw [if_pos hge]
    simp only [List.length_append, List.length_tail, List.length_cons,
      List.length_nil]
    omega
  · rw [if_neg (not_le.mpr hlt)]
    simp only [List.length_append, List.length_cons, List.length_nil]
    omega

lemma runPeakSampling_length (N : ℕ) (hN : 1 ≤ N) (heights : List ℚ) :
    (runPeakSampling N heights).length ≤ N := by
  unfold runPeakSampling
  have key : ∀ (hs : List ℚ) (s : List ℚ), s.length ≤ N →
      (hs.foldl (samplingTick N) s).length ≤ N := by
    intro hs
    induction hs with
    | nil => intro s h; exact h
    | cons x xs ih =>
      intro s h
      exact ih _ (samplingTick_length N hN s x h)
  exact key heights _ (by simp)

/-- C6: for a canvas wide enough to hold at least one bar, the waveform
history never exceeds `TOTAL_BARS = ⌊canvas width / (bar width +
spacing)⌋`: starting from the initial zero fill, any number of
shift-then-push sampling ticks keeps the length at most `TOTAL_BARS`. -/
theorem C6_waveform_history_bounded (VIS_W : ℕ)
    (hN : 1 ≤ TOTAL_BARS VIS_W) (heights : List ℚ) :
    (runPeakSampling (TOTAL_BARS VIS_W) heights).length ≤ TOTAL_BARS VIS_W :=
  runPeakSampling_length (TOTAL_BARS VIS_W) hN heights

theorem C6_witness :
    1 ≤ TOTAL_BARS 300 ∧
    (runPeakSampling (TOTAL_BARS 300) [(1 : ℚ), 2, 3]).length ≤ TOTAL_BARS 300 :=
  ⟨by decide, C6_waveform_history_bounded 300 (by decide) [(1 : ℚ), 2, 3]⟩

/-! ## Claim theorems C9 and C10 -/

lemma extractOne_ok (sd : NowPlayingContext) (d : StationDescriptor)
    (h : extractOne sd = .ok d) :
    ∃ st, sd.station = some st ∧
      d.originalName = st.name ∧ d.shortcode = st.shortcode ∧
      ((jsTruthy st.listen_url = true ∧ d.url = st.listen_url) ∨
       (jsTruthy st.listen_url = false ∧
         ∃ mounts, st.mounts = some mounts ∧
           d.url = findDefaultMountUrl mounts)) := by
  rcases hst : sd.station with _ | st
  · simp only [extractOne, hst] at h
    exact Except.noConfusion h
  · simp only [extractOne, hst] at h
    by_cases hu : jsTruthy st.listen_url
    · rw [if_pos hu] at h
      injection h with h'
      subst h'
      exact ⟨st, rfl, rfl, rfl, Or.inl ⟨hu, rfl⟩⟩
    · rw [if_neg hu] at h
      rcases hm : st.mounts with _ | mounts
      · rw [hm] at h
        exact Except.noConfusion h
      · rw [hm] at h
        injection h with h'
        subst h'
        exact ⟨st, rfl, rfl, rfl,
          Or.inr ⟨(Bool.not_eq_true _).mp hu, mounts, hm, rfl⟩⟩

/-- C9: whenever `extractStations` returns a list, every returned
descriptor has a truthy (resolvable) url, and that url comes from some
payload station by the stated preference: the station's `listen_url`
when truthy, otherwise the url of its first mount flagged
`is_default` — stations resolving to no truthy url having been
filtered out. -/
theorem C9_extracted_stations_resolvable (l : List NowPlayingContext)
    (out : List StationDescriptor) (h : extractStations l = .ok out) :
    ∀ d ∈ out, jsTruthy d.url = true ∧
      ∃ sd ∈ l, ∃ st, sd.station = some st ∧
        d.originalName = st.name ∧ d.shortcode = st.shortcode ∧
        ((jsTruthy st.listen_url = true ∧ d.url = st.listen_url) ∨
         (jsTruthy st.listen_url = false ∧
           ∃ mounts, st.mounts = some mounts ∧
             d.url = findDefaultMountUrl mounts)) := by
  induction l generalizing out with
  | nil =>
    rw [extractStations] at h
    injection h with h'
    subst h'
    intro d hd
    exact absurd hd (List.not_mem_nil d)
  | cons sd rest ih =>
    rw [extractStations] at h
    rcases hone : extractOne sd with e | d0
    · rw [hone] at h
      exact Except.noConfusion h
    · rw [hone] at h
      rcases hrest : extractStations rest with e | ds
      · rw [hrest] at h
        exact Except.noConfusion h
      · rw [hrest] at h
        injection h with h'
        subst h'
        intro x hx
        by_cases hu : jsTruthy d0.url
        · rw [if_pos hu] at hx
          rcases List.mem_cons.mp hx with rfl | hx'
          · obtain ⟨st, hst, hnm, hsc, hurl⟩ := extractOne_ok sd x hone
            exact ⟨hu, sd, List.mem_cons_self sd rest, st, hst, hnm, hsc, hurl⟩
          · obtain ⟨hux, sd', hsd', rest'⟩ := ih ds hrest x hx'
            exact ⟨hux, sd', List.mem_cons_of_mem sd hsd', rest'⟩
        · rw [if_neg hu] at hx
          obtain ⟨hux, sd', hsd', rest'⟩ := ih ds hrest x hx
          exact ⟨hux, sd', List.mem_cons_of_mem sd hsd', rest'⟩

def c9Out : StationDescriptor :=
  { name := "رنگارنگ", originalName := "Rangarang",
    shortcode := "rangarang", url := some "http://stream.example/rang" }

theorem C9_witness :
    extractStations [c7Ctx] = .ok [c9Out] ∧
    (jsTruthy c9Out.url = true ∧
      ∃ sd ∈ [c7Ctx], ∃ st, sd.station = some st ∧
        c9Out.originalName = st.name ∧ c9Out.shortcode = st.shortcode ∧
        ((jsTruthy st.listen_url = true ∧ c9Out.url = st.listen_url) ∨
         (jsTruthy st.listen_url = false ∧
           ∃ mounts, st.mounts = some mounts ∧
             c9Out.url = findDefaultMountUrl mounts))) :=
  ⟨rfl, C9_extracted_stations_resolvable [c7Ctx] [c9Out] rfl c9Out
    (List.mem_singleton.mpr rfl)⟩

lemma extractOne_isOk (sd : NowPlayingContext) (st : StationInfo)
    (hst : sd.station = some st)
    (himp : jsTruthy st.listen_url = false → st.mounts.isSome = true) :
    ∃ d, extractOne sd = .ok d := by
  simp only [extractOne, hst]
  by_cases hu : jsTruthy st.listen_url
  · rw [if_pos hu]
    exact ⟨_, rfl⟩
  · rw [if_neg hu]
    rcases hm : st.mounts with _ | mounts
    · rw [hm] at himp
      simp at himp
      exact absurd himp hu
    · exact ⟨_, rfl⟩

def c10Bad : StationInfo :=
  { name := "Mystery FM", shortcode := "mystery",
    listen_url := none, mounts := none }

def c10BadCtx : NowPlayingContext :=
  { station := some c10Bad, now_playing := none,
    song_history := [], playing_next := none }

/-- C10: `extractStations` is not total over all payload shapes — on a
payload whose station has neither a `listen_url` nor a `mounts` field
it throws (the JS dereferences `mounts` to call `.find`), modelled as
`Except.error`; and on every payload each of whose elements carries a
station that has `mounts` whenever its `listen_url` is falsy, it
returns normally. -/
theorem C10_extraction_partiality :
    extractStations [c10BadCtx] = .error () ∧
    ∀ l : List NowPlayingContext,
      (∀ sd ∈ l, ∃ st, sd.station = some st ∧
        (jsTruthy st.listen_url = false → st.mounts.isSome = true)) →
      ∃ out, extractStations l = .ok out := by
  constructor
  · rfl
  · intro l
    induction l with
    | nil => exact fun _ => ⟨[], rfl⟩
    | cons sd rest ih =>
      intro hpre
      obtain ⟨st, hst, himp⟩ := hpre sd (List.mem_cons_self sd rest)
      obtain ⟨d, hone⟩ := extractOne_isOk sd st hst himp
      obtain ⟨ds, hds⟩ :=
        ih (fun x hx => hpre x (List.mem_cons_of_mem sd hx))
      exact ⟨if jsTruthy d.url then d :: ds else ds,
        by rw [extractStations, hone, hds]⟩

def c10Good : StationInfo :=
  { name := "Mount FM", shortcode := "mount", listen_url := none,
    mounts := some [{ url := some "http://mounts.example/live",
                      is_default := true }] }

def c10GoodCtx : NowPlayingContext :=
  { station := some c10Good, now_playing := none,
    song_history := [], playing_next := none }

theorem C10_witness :
    (∀ sd ∈ [c10GoodCtx], ∃ st, sd.station = some st ∧
      (jsTruthy st.listen_url = false → st.mounts.isSome = true)) ∧
    ∃ out, extractStations [c10GoodCtx] = .ok out := by
  have hpre : ∀ sd ∈ [c10GoodCtx], ∃ st, sd.station = some st ∧
      (jsTruthy st.listen_url = false → st.mounts.isSome = true) := by
    intro sd hsd
    rw [List.mem_singleton] at hsd
    subst hsd
    exact ⟨c10Good, rfl, fun _ => rfl⟩
  exact ⟨hpre, C10_extraction_partiality.2 [c10GoodCtx] hpre⟩

end Beep
